import Mathlib

/-!
# Face-Detection: the orchestration logic of `App.jsx` and `detection.jsx`

Two React components drive a face detector over a webcam stream.

* `src/App.jsx` polls with `setInterval`, draws a labelled rectangle per
  prediction and calls `callCustomApi` behind a 10 000 ms check on
  `lastApiCall`.
* `src/detection.jsx` offers a start/stop toggle, normalises the two detector
  output shapes into boxes, strokes them on a canvas and reschedules itself
  with `requestAnimationFrame`.

The embedding is shallow.  A component function becomes a Lean function from
what the closure captured at render time, the refs it reads, and the values
the environment hands back (detector results, `Date.now()`), to the ordered
list of effects it performs.  React state setters and host calls are effects;
a component state records what they do.

Coordinates are JavaScript numbers.  They are kept abstract: any carrier with
a subtraction, a NaN and an embedding of the integer literals is accepted, so
every statement holds for IEEE doubles as well.  Timestamps are the integer
millisecond counts that `Date.now()` returns; they stay far below `2^53`, so
their differences are exact and `Int` models them.  A reading counts the
milliseconds since 1 January 1970, so statements about the first call carry
the range of the readings (at least 10 000) as a hypothesis.
-/

namespace FaceDetection

/-! ## JavaScript values -/

/-- Number arithmetic the two components use: binary minus, the NaN that
minus yields on `undefined`, and integer literals. -/
class JSNumber (α : Type) where
  sub : α → α → α
  nan : α
  ofInt : Int → α

/-- Result of reading an array slot or a destructured name: a number, or
`undefined` when the slot does not exist. -/
inductive JSVal (α : Type) where
  | num (a : α)
  | undefined
  deriving DecidableEq, Repr

/-- ToNumber on the two kinds of value: `undefined` becomes NaN. -/
def JSVal.toNumber {α : Type} [JSNumber α] : JSVal α → α
  | .num a => a
  | .undefined => JSNumber.nan

/-- The JavaScript expression `a - b`. -/
def jsSub {α : Type} [JSNumber α] (a b : JSVal α) : JSVal α :=
  .num (JSNumber.sub a.toNumber b.toNumber)

/-- The JavaScript expression `arr[i]` on an array of numbers. -/
def index {α : Type} (arr : List α) (i : Nat) : JSVal α :=
  match arr[i]? with
  | some a => .num a
  | none => .undefined

/-- Concrete carrier for evaluation: integer-valued numbers and NaN. -/
inductive IntNum where
  | int (i : Int)
  | nan
  deriving DecidableEq, Repr

/-- Minus on `IntNum`: NaN is absorbing. -/
def IntNum.sub : IntNum → IntNum → IntNum
  | .int a, .int b => .int (a - b)
  | _, _ => .nan

instance : JSNumber IntNum where
  sub := IntNum.sub
  nan := IntNum.nan
  ofInt := IntNum.int

/-- One blazeface prediction (`returnTensors = false`): two coordinate
arrays. -/
structure Prediction (α : Type) where
  topLeft : List α
  bottomRight : List α
  deriving DecidableEq, Repr

/-- The `<canvas>` element behind `canvasRef.current`. -/
structure Canvas where
  width : Nat
  height : Nat
  deriving DecidableEq, Repr

/-! ## detection.jsx -/

namespace Detection

/-- Values `setDetectionType` is called with (lines 21 and 26). -/
inductive DetectionType where
  | native
  | blazeface
  deriving DecidableEq, Repr

/-- The `box` object: `{x, y, width, height}`. -/
structure Box (α : Type) where
  x : JSVal α
  y : JSVal α
  width : JSVal α
  height : JSVal α
  deriving DecidableEq, Repr

/-- Element of the `faces` array after normalisation: `{ box }`. -/
structure Face (α : Type) where
  box : Box α
  deriving DecidableEq, Repr

/-- Element returned by the native `FaceDetector.detect`. -/
structure NativeFace (α : Type) where
  boundingBox : Box α
  deriving DecidableEq, Repr

/-- What a render of the component closes over: the state values that
`detectFaces` and `toggleDetection` read as constants. -/
structure Closure where
  detector : Bool
  detectionType : Option DetectionType
  isDetecting : Bool
  deriving DecidableEq, Repr

/-- The refs, read at call time. -/
structure Refs where
  video : Bool
  canvas : Option Canvas
  detectionRef : Option Nat
  deriving DecidableEq, Repr

/-- Effects of the component, in the order they are performed. -/
inductive Effect (α : Type) where
  | detect
  | estimateFaces
  | getContext
  | clearRect (x y w h : Nat)
  | setStrokeStyle (style : String)
  | setLineWidth (w : Nat)
  | strokeRect (x y width height : JSVal α)
  | requestAnimationFrame
  | cancelAnimationFrame (handle : Option Nat)
  | setError (msg : String)
  | setIsDetecting (b : Bool)
  | detectFaces (c : Closure)
  deriving DecidableEq, Repr

/-- What the environment does during one `detectFaces` run: the value each
detector call resolves with (`none`: the awaited call fails), and which of the
later steps throws, if any (its position in the step list). -/
structure Env (α : Type) where
  detect : Option (List (NativeFace α))
  estimateFaces : Option (List (Prediction α))
  failAt : Option Nat

/-- Lines 66-68: `faces.map(face => ({ box: face.boundingBox }))`. -/
def nativeFaces {α : Type} (faces : List (NativeFace α)) : List (Face α) :=
  faces.map (fun face => { box := face.boundingBox })

/-- Lines 71-78: the boxes built from the blazeface predictions. -/
def fallbackFaces {α : Type} [JSNumber α] (predictions : List (Prediction α)) :
    List (Face α) :=
  predictions.map (fun pred =>
    { box :=
      { x := index pred.topLeft 0
        y := index pred.topLeft 1
        width := jsSub (index pred.bottomRight 0) (index pred.topLeft 0)
        height := jsSub (index pred.bottomRight 1) (index pred.topLeft 1) } })

/-- Lines 63-79: the detector call of the branch chosen by `detectionType`,
and the `faces` it leaves (`none`: the call failed). -/
def runDetector {α : Type} [JSNumber α] (c : Closure) (env : Env α) :
    Effect α × Option (List (Face α)) :=
  if c.detectionType = some .native then
    (.detect, env.detect.map nativeFaces)
  else
    (.estimateFaces, env.estimateFaces.map fallbackFaces)

/-- Lines 81-93: the context lookup, the clear, and the `forEach` that
strokes one rectangle per face. -/
def canvasSteps {α : Type} (canvas : Canvas) (faces : List (Face α)) : List (Effect α) :=
  [.getContext, .clearRect 0 0 canvas.width canvas.height]
    ++ faces.flatMap (fun face =>
        [.setStrokeStyle "#4ade80", .setLineWidth 2,
         .strokeRect face.box.x face.box.y face.box.width face.box.height])

/-- Lines 81-97: the steps after the detector has resolved, in source order;
the last one is the `requestAnimationFrame` under `if (isDetecting)`. -/
def afterDetector {α : Type} (c : Closure) (canvas : Canvas) (faces : List (Face α)) :
    List (Effect α) :=
  canvasSteps canvas faces ++ (if c.isDetecting then [.requestAnimationFrame] else [])

/-- Runs a statement sequence until the step at `failAt` throws: the steps
before it have happened, the throwing one and those after it have not. The
flag tells whether something was thrown. -/
def runSteps {ε : Type} (steps : List ε) (failAt : Option Nat) : List ε × Bool :=
  match failAt with
  | none => (steps, false)
  | some k => if k < steps.length then (steps.take k, true) else (steps, false)

/-- Result of one call of the async function: its effects and whether the
returned promise rejects. -/
structure Outcome (α : Type) where
  trace : List (Effect α)
  raised : Bool
  deriving DecidableEq, Repr

/-- Lines 98-101: the `catch` block. Both calls are React setters. -/
def catchBlock {α : Type} : List (Effect α) :=
  [.setError "Detection failed", .setIsDetecting false]

/-- Lines 59-102: `detectFaces`. -/
def detectFaces {α : Type} [JSNumber α] (c : Closure) (refs : Refs) (env : Env α) :
    Outcome α :=
  match refs.canvas with
  | none => { trace := [], raised := false }
  | some canvas =>
    if !c.detector || !refs.video then { trace := [], raised := false }
    else
      match runDetector c env with
      | (call, none) => { trace := call :: catchBlock, raised := false }
      | (call, some faces) =>
        match runSteps (afterDetector c canvas faces) env.failAt with
        | (done, true) => { trace := call :: (done ++ catchBlock), raised := false }
        | (done, false) => { trace := call :: done, raised := false }

/-- Lines 104-113: the updater passed to `setIsDetecting`; `prev` is the
state React hands it. Returns the effects of the updater and the new state
value. -/
def toggleDetection {α : Type} (c : Closure) (refs : Refs) (prev : Bool) :
    List (Effect α) × Bool :=
  if !prev then ([.detectFaces c], !prev)
  else ([.cancelAnimationFrame refs.detectionRef], !prev)

/-- Component state: React state, refs, and the animation frames the host
holds for it. -/
structure Component where
  error : String
  isLoading : Bool
  isDetecting : Bool
  detector : Bool
  detectionType : Option DetectionType
  video : Bool
  canvas : Option Canvas
  detectionRef : Option Nat
  scheduled : List Nat
  nextHandle : Nat
  deriving DecidableEq, Repr

/-- The closure a render of state `s` creates. -/
def Component.render (s : Component) : Closure :=
  { detector := s.detector, detectionType := s.detectionType, isDetecting := s.isDetecting }

/-- The refs of state `s`. -/
def Component.refs (s : Component) : Refs :=
  { video := s.video, canvas := s.canvas, detectionRef := s.detectionRef }

/-- What one effect does to the component state. Line 96 stores the handle
that `requestAnimationFrame` returns in `detectionRef.current`. -/
def applyEffect {α : Type} (s : Component) : Effect α → Component
  | .setError msg => { s with error := msg }
  | .setIsDetecting b => { s with isDetecting := b }
  | .requestAnimationFrame =>
    { s with detectionRef := some s.nextHandle
             scheduled := s.scheduled ++ [s.nextHandle]
             nextHandle := s.nextHandle + 1 }
  | .cancelAnimationFrame handle =>
    { s with scheduled := s.scheduled.filter (fun h => some h != handle) }
  | _ => s

/-- Applies a trace of effects from left to right. -/
def applyTrace {α : Type} (s : Component) (trace : List (Effect α)) : Component :=
  trace.foldl applyEffect s

/-- One click on the button: `toggleDetection` of the current render runs
with the current state value, and the state takes the value it returns. -/
def click {α : Type} (s : Component) : Component × List (Effect α) :=
  let r : List (Effect α) × Bool := toggleDetection s.render s.refs s.isDetecting
  (applyTrace s (r.1 ++ [.setIsDetecting r.2]), r.1)

/-- Canvas method calls that paint or erase pixels. -/
def isDrawCommand {α : Type} : Effect α → Bool
  | .clearRect _ _ _ _ => true
  | .strokeRect _ _ _ _ => true
  | _ => false

/-- Effects that only touch the canvas and its context. -/
def isCanvasOp {α : Type} : Effect α → Bool
  | .getContext => true
  | .clearRect _ _ _ _ => true
  | .setStrokeStyle _ => true
  | .setLineWidth _ => true
  | .strokeRect _ _ _ _ => true
  | _ => false

/-- Whether a trace starts a `detectFaces` call. -/
def startsDetectFaces {α : Type} (trace : List (Effect α)) : Bool :=
  trace.any (fun e => match e with
    | .detectFaces _ => true
    | _ => false)

/-- Number of `requestAnimationFrame` calls in a trace. -/
def rafCount {α : Type} (trace : List (Effect α)) : Nat :=
  (trace.filter (fun e => match e with
    | .requestAnimationFrame => true
    | _ => false)).length

/-- Whether an iteration that got past the guard fails: the awaited detector
call rejects, or one of the later steps throws. -/
def iterationFails {α : Type} [JSNumber α] (c : Closure) (canvas : Canvas) (env : Env α) :
    Bool :=
  match (runDetector c env).2 with
  | none => true
  | some faces =>
    match env.failAt with
    | none => false
    | some k => decide (k < (afterDetector c canvas faces).length)

/-- A running component: blazeface detector, 640 x 480 canvas, one frame
scheduled under handle 3. -/
def running : Component :=
  { error := "", isLoading := false, isDetecting := true, detector := true,
    detectionType := some .blazeface, video := true,
    canvas := some { width := 640, height := 480 },
    detectionRef := some 3, scheduled := [3], nextHandle := 4 }

/-- An idle component, ready to start: blazeface detector loaded, nothing
scheduled. -/
def idle : Component :=
  { error := "", isLoading := false, isDetecting := false, detector := true,
    detectionType := some .blazeface, video := true,
    canvas := some { width := 640, height := 480 },
    detectionRef := none, scheduled := [], nextHandle := 0 }

/-- An environment in which blazeface finds one face, from (10, 20) to
(40, 60), and no step throws. -/
def oneFace : Env IntNum :=
  { detect := none
    estimateFaces := some [{ topLeft := [.int 10, .int 20], bottomRight := [.int 40, .int 60] }]
    failAt := none }

/-- The environment of `oneFace`, except that the fourth step after the
detector (index 3, the `setLineWidth` of the first face) throws. -/
def failingDraw : Env IntNum :=
  { detect := none
    estimateFaces := some [{ topLeft := [.int 10, .int 20], bottomRight := [.int 40, .int 60] }]
    failAt := some 3 }

end Detection

/-! ## App.jsx -/

namespace App

/-- What a render of `App` closes over: the state values `detectFaces` reads
as constants. A loaded model object is named by a number. -/
structure Closure where
  model : Option Nat
  lastApiCall : Int
  deriving DecidableEq, Repr

/-- Effects of the component, in the order they are performed. -/
inductive Effect (α : Type) where
  | estimateFaces
  | getContext
  | clearRect (x y w h : Nat)
  | beginPath
  | rect (x y width height : JSVal α)
  | setLineWidth (w : Nat)
  | setStrokeStyle (style : String)
  | stroke
  | setFont (font : String)
  | setFillStyle (style : String)
  | fillText (text : String) (x y : JSVal α)
  | callCustomApi
  | setLastApiCall (t : Int)
  deriving DecidableEq, Repr

/-- Lines 37-39: the array `topLeft.concat(bottomRight.map((val, i) => val -
topLeft[i]))`, destructured into `[x, y, width, height]`. -/
def rectOf {α : Type} [JSNumber α] (prediction : Prediction α) :
    JSVal α × JSVal α × JSVal α × JSVal α :=
  let arr := prediction.topLeft ++
    prediction.bottomRight.mapIdx
      (fun i val => JSNumber.sub val (index prediction.topLeft i).toNumber)
  (index arr 0, index arr 1, index arr 2, index arr 3)

/-- Lines 36-51: the body of the `forEach` callback. -/
def drawPrediction {α : Type} [JSNumber α] (prediction : Prediction α) : List (Effect α) :=
  match rectOf prediction with
  | (x, y, width, height) =>
    [.beginPath, .rect x y width height, .setLineWidth 2, .setStrokeStyle "red", .stroke,
     .setFont "16px Arial", .setFillStyle "red",
     .fillText "Intruder Detected" x (jsSub y (.num (JSNumber.ofInt 10)))]

/-- Lines 28-60: `detectFaces`. `video` is `videoRef.current`, `predictions`
what `model.estimateFaces` resolves with and `currentTime` what `Date.now()`
returns on line 53. -/
def detectFaces {α : Type} [JSNumber α] (c : Closure) (video : Bool) (canvas : Canvas)
    (predictions : List (Prediction α)) (currentTime : Int) : List (Effect α) :=
  if video && c.model.isSome then
    [.estimateFaces, .getContext, .clearRect 0 0 canvas.width canvas.height]
      ++ (if predictions.length > 0 then
            predictions.flatMap drawPrediction
              ++ (if currentTime - c.lastApiCall ≥ 10000 then
                    [.callCustomApi, .setLastApiCall currentTime]
                  else [])
          else [])
  else []

/-- Component state: the two `useState` values, the refs, and the closure
that the live `setInterval` callback calls. -/
structure State where
  model : Option Nat
  lastApiCall : Int
  video : Bool
  canvas : Canvas
  interval : Closure
  deriving DecidableEq, Repr

/-- State after the first render and its effect: `useState(null)`,
`useState(0)`, the 720 x 560 canvas, and the interval installed by the effect
of that render. -/
def mount : State :=
  { model := none, lastApiCall := 0, video := true, canvas := { width := 720, height := 560 },
    interval := { model := none, lastApiCall := 0 } }

/-- A state update followed by the re-render. Lines 70-79: the effect has
the dependency list `[model]`, so the interval is cleared and installed again,
around the `detectFaces` of the new render, only when `model` changed. -/
def commit (s : State) (model : Option Nat) (lastApiCall : Int) : State :=
  { s with
    model := model
    lastApiCall := lastApiCall
    interval :=
      if model ≠ s.model then { model := model, lastApiCall := lastApiCall }
      else s.interval }

/-- What one effect does to the component state. -/
def applyEffect {α : Type} (s : State) : Effect α → State
  | .setLastApiCall t => commit s s.model t
  | _ => s

/-- Applies a trace of effects from left to right. -/
def applyTrace {α : Type} (s : State) (trace : List (Effect α)) : State :=
  trace.foldl applyEffect s

/-- What happens to the mounted component: the interval fires and the run
it starts gets `predictions` and reads `currentTime`; or a `blazeface.load()`
resolves and line 14 sets the model. -/
inductive Event (α : Type) where
  | tick (predictions : List (Prediction α)) (currentTime : Int)
  | modelLoaded (m : Nat)
  deriving DecidableEq, Repr

/-- One event: the new state and the effects performed. -/
def step {α : Type} [JSNumber α] (s : State) : Event α → State × List (Effect α)
  | .tick predictions currentTime =>
    let trace := detectFaces s.interval s.video s.canvas predictions currentTime
    (applyTrace s trace, trace)
  | .modelLoaded m => (commit s (some m) s.lastApiCall, [])

/-- Whether a trace contains a call of `callCustomApi`. -/
def callsCustomApi {α : Type} (trace : List (Effect α)) : Bool :=
  trace.any (fun e => match e with
    | .callCustomApi => true
    | _ => false)

/-- The times of the ticks at which `callCustomApi` is called, in order. -/
def callTimes {α : Type} [JSNumber α] (s : State) : List (Event α) → List Int
  | [] => []
  | ev :: rest =>
    let r := step s ev
    (match ev with
      | .tick _ currentTime => if callsCustomApi r.2 then [currentTime] else []
      | .modelLoaded _ => [])
      ++ callTimes r.1 rest

/-- One firing of the 100 ms interval, as seen from outside: when it fires
and how long the `estimateFaces` call it starts takes to resolve. -/
structure Tick where
  time : Int
  latency : Nat
  deriving DecidableEq, Repr

/-- Lines 74-76 and 28-30 for one tick. `pending` holds the times at which
the `estimateFaces` calls of earlier ticks resolve. Returns the pending list
after the tick and the number of earlier calls that had not resolved when this
tick started its own. A call counts as resolved once its time has passed. -/
def onTick (c : Closure) (video : Bool) (pending : List Int) (tk : Tick) : List Int × Nat :=
  let unresolved := pending.filter (fun r => decide (tk.time ≤ r))
  if video && c.model.isSome then
    (unresolved ++ [tk.time + tk.latency], unresolved.length)
  else (unresolved, 0)

/-- For every tick of a run, the number of earlier `estimateFaces` calls
still unresolved when the tick starts a new one. -/
def overlaps (c : Closure) (video : Bool) : List Int → List Tick → List Nat
  | _, [] => []
  | pending, tk :: rest =>
    let r := onTick c video pending tk
    r.2 :: overlaps c video r.1 rest

/-- The two effects of lines 55-56. -/
def isNotifierEffect {α : Type} : Effect α → Bool
  | .callCustomApi => true
  | .setLastApiCall _ => true
  | _ => false

/-- Whether an event leaves the notifier untouched by construction: a tick
whose run gets no prediction, or a model load. -/
def noFace {α : Type} : Event α → Bool
  | .tick predictions _ => predictions.isEmpty
  | .modelLoaded _ => true

/-- State after a sequence of events. -/
def runEvents {α : Type} [JSNumber α] (s : State) (events : List (Event α)) : State :=
  events.foldl (fun st ev => (step st ev).1) s

/-- Invariant of the runs that have not yet seen a face: both the state and
the interval closure still hold the initial `lastApiCall`. -/
def Fresh (s : State) : Prop :=
  s.lastApiCall = 0 ∧ s.interval.lastApiCall = 0 ∧ s.video = true

/-- One blazeface prediction: a face from (10, 20) to (40, 60). -/
def face : Prediction IntNum :=
  { topLeft := [.int 10, .int 20], bottomRight := [.int 40, .int 60] }

end App

end FaceDetection

/-! ## Theorems -/

namespace FaceDetection

namespace Detection

/-- The first effect of an iteration is the detector call of one of the two
branches. -/
theorem runDetector_call {α : Type} [JSNumber α] (c : Closure) (env : Env α) :
    (runDetector c env).1 = .detect ∨ (runDetector c env).1 = .estimateFaces := by
  unfold runDetector
  split
  · exact Or.inl rfl
  · exact Or.inr rfl

/-- Lines 81-93 only touch the canvas. -/
theorem canvasSteps_isCanvasOp {α : Type} (canvas : Canvas) (faces : List (Face α)) :
    ∀ e ∈ canvasSteps canvas faces, isCanvasOp e = true := by
  intro e he
  simp only [canvasSteps, List.mem_append, List.mem_cons, List.mem_singleton,
    List.mem_flatMap, List.not_mem_nil, or_false] at he
  rcases he with (rfl | rfl) | ⟨f, _, rfl | rfl | rfl⟩ <;> rfl

/-- Canvas operations leave the component state as it is. -/
theorem applyTrace_canvasOps {α : Type} (s : Component) (tr : List (Effect α))
    (h : ∀ e ∈ tr, isCanvasOp e = true) : applyTrace s tr = s := by
  induction tr with
  | nil => rfl
  | cons e es ih =>
    have he : applyEffect s e = s := by
      have := h e (List.mem_cons_self _ _)
      cases e <;> first | rfl | simp [isCanvasOp] at this
    simp only [applyTrace, List.foldl_cons, he]
    exact ih (fun x hx => h x (List.mem_cons_of_mem _ hx))

/-- Canvas operations schedule no frame. -/
theorem rafCount_canvasOps {α : Type} (tr : List (Effect α))
    (h : ∀ e ∈ tr, isCanvasOp e = true) : rafCount tr = 0 := by
  unfold rafCount
  rw [List.length_eq_zero, List.filter_eq_nil_iff]
  intro e he
  have := h e he
  cases e <;> simp [isCanvasOp] at this ⊢

/-- The steps completed before a throwing step are canvas operations: the
`requestAnimationFrame`, when present, is the last step. -/
theorem take_afterDetector {α : Type} (c : Closure) (canvas : Canvas) (faces : List (Face α))
    (k : Nat) (hk : k < (afterDetector c canvas faces).length) :
    ∀ e ∈ (afterDetector c canvas faces).take k, isCanvasOp e = true := by
  have hle : k ≤ (canvasSteps canvas faces).length := by
    unfold afterDetector at hk
    rw [List.length_append] at hk
    cases h : c.isDetecting <;> simp [h] at hk <;> omega
  unfold afterDetector
  rw [List.take_append_of_le_length hle]
  intro e he
  exact canvasSteps_isCanvasOp canvas faces e (List.mem_of_mem_take he)

/-- The `forEach` of lines 84-93 paints one `strokeRect` per face, in order. -/
theorem filter_draw_faces {α : Type} (faces : List (Face α)) :
    (faces.flatMap (fun face =>
        [Effect.setStrokeStyle "#4ade80", Effect.setLineWidth 2,
         Effect.strokeRect face.box.x face.box.y face.box.width face.box.height])).filter
      isDrawCommand
      = faces.map (fun face =>
          Effect.strokeRect face.box.x face.box.y face.box.width face.box.height) := by
  induction faces with
  | nil => rfl
  | cons f fs ih =>
    simp only [List.flatMap_cons, List.filter_append, ih, List.map_cons]
    rfl

/-- Drawing commands among the steps after the detector. -/
theorem filter_draw_afterDetector {α : Type} (c : Closure) (canvas : Canvas)
    (faces : List (Face α)) :
    (afterDetector c canvas faces).filter isDrawCommand
      = .clearRect 0 0 canvas.width canvas.height
        :: faces.map (fun face =>
            Effect.strokeRect face.box.x face.box.y face.box.width face.box.height) := by
  unfold afterDetector canvasSteps
  rw [List.filter_append, List.filter_append, filter_draw_faces]
  cases c.isDetecting <;> simp [isDrawCommand]

/-- Past the guard of line 60, `detectFaces` is its `try`/`catch`. -/
theorem detectFaces_guard {α : Type} [JSNumber α] (c : Closure) (refs : Refs) (env : Env α)
    (canvas : Canvas)
    (hd : c.detector = true) (hv : refs.video = true) (hc : refs.canvas = some canvas) :
    detectFaces c refs env
      = match runDetector c env with
        | (call, none) => { trace := call :: catchBlock, raised := false }
        | (call, some faces) =>
          match runSteps (afterDetector c canvas faces) env.failAt with
          | (done, true) => { trace := call :: (done ++ catchBlock), raised := false }
          | (done, false) => { trace := call :: done, raised := false } := by
  unfold detectFaces
  rw [hc]
  simp only [hd, hv, Bool.not_true, Bool.or_self, Bool.false_eq_true, if_false]

/-- Trace of an iteration in which nothing fails. -/
theorem detectFaces_success {α : Type} [JSNumber α] (c : Closure) (refs : Refs) (env : Env α)
    (canvas : Canvas) (faces : List (Face α))
    (hd : c.detector = true) (hv : refs.video = true) (hc : refs.canvas = some canvas)
    (hr : (runDetector c env).2 = some faces) (hf : env.failAt = none) :
    detectFaces c refs env
      = { trace := (runDetector c env).1 :: afterDetector c canvas faces, raised := false } := by
  rw [detectFaces_guard c refs env canvas hd hv hc]
  rcases hp : runDetector c env with ⟨call, r⟩
  rw [hp] at hr
  simp only at hr
  subst hr
  simp [runSteps, hf]

/-- C5: in a run of `detectFaces` in `detection.jsx` that gets past the guard
and in which the detector resolves with the boxes `faces` and no step throws,
the drawing commands issued on the canvas (the calls that erase or paint:
`clearRect` and `strokeRect`) are exactly `clearRect(0, 0, canvas.width,
canvas.height)` followed by one `strokeRect(x, y, width, height)` per box, the
i-th call for the i-th box; there are `1 + n` of them, and with no face only
the clear is issued. -/
theorem detectFaces_draws {α : Type} [JSNumber α] (c : Closure) (refs : Refs) (env : Env α)
    (canvas : Canvas) (faces : List (Face α))
    (hd : c.detector = true) (hv : refs.video = true) (hc : refs.canvas = some canvas)
    (hr : (runDetector c env).2 = some faces) (hf : env.failAt = none) :
    (detectFaces c refs env).trace.filter isDrawCommand
        = .clearRect 0 0 canvas.width canvas.height
          :: faces.map (fun face =>
              Effect.strokeRect face.box.x face.box.y face.box.width face.box.height)
      ∧ ((detectFaces c refs env).trace.filter isDrawCommand).length = 1 + faces.length
      ∧ (faces = [] → (detectFaces c refs env).trace.filter isDrawCommand
          = [.clearRect 0 0 canvas.width canvas.height]) := by
  have key : (detectFaces c refs env).trace.filter isDrawCommand
        = .clearRect 0 0 canvas.width canvas.height
          :: faces.map (fun face =>
              Effect.strokeRect face.box.x face.box.y face.box.width face.box.height) := by
    rw [detectFaces_success c refs env canvas faces hd hv hc hr hf]
    simp only
    rw [List.filter_cons, filter_draw_afterDetector]
    rcases runDetector_call c env with h | h <;> rw [h] <;> simp [isDrawCommand]
  refine ⟨key, ?_, ?_⟩
  · rw [key]; simp; omega
  · intro h; rw [key, h]; rfl

/-- Instance of `detectFaces_draws`: one face at x = 10, y = 20, width = 30,
height = 40 gives exactly one rectangle at those coordinates after the
clear. -/
theorem detectFaces_draws_witness :
    (detectFaces idle.render idle.refs oneFace).trace.filter isDrawCommand
      = [.clearRect 0 0 640 480,
         .strokeRect (.num (.int 10)) (.num (.int 20)) (.num (.int 30)) (.num (.int 40))] :=
  (detectFaces_draws idle.render idle.refs oneFace { width := 640, height := 480 }
    [{ box :=
       { x := .num (.int 10), y := .num (.int 20), width := .num (.int 30),
         height := .num (.int 40) } }]
    rfl rfl rfl rfl rfl).1

/-- Trace of an iteration in which something fails: the detector call, some
canvas operations, then the `catch` block. -/
theorem detectFaces_failure_trace {α : Type} [JSNumber α] (c : Closure) (refs : Refs)
    (env : Env α) (canvas : Canvas)
    (hd : c.detector = true) (hv : refs.video = true) (hc : refs.canvas = some canvas)
    (hfail : iterationFails c canvas env = true) :
    ∃ tr : List (Effect α), (∀ e ∈ tr, isCanvasOp e = true) ∧
      detectFaces c refs env
        = { trace := (runDetector c env).1 :: (tr ++ catchBlock), raised := false } := by
  rw [detectFaces_guard c refs env canvas hd hv hc]
  unfold iterationFails at hfail
  rcases hp : runDetector c env with ⟨call, r⟩
  rw [hp] at hfail
  cases r with
  | none => exact ⟨[], by simp, rfl⟩
  | some faces =>
    simp only at hfail
    cases hk : env.failAt with
    | none => rw [hk] at hfail; simp at hfail
    | some k =>
      rw [hk] at hfail
      simp only [decide_eq_true_eq] at hfail
      refine ⟨(afterDetector c canvas faces).take k, take_afterDetector c canvas faces k hfail, ?_⟩
      simp [runSteps, hfail]

/-- C6: in `detection.jsx`, with detector, video and canvas present, if the
detector call rejects or any later step of the iteration throws, then
`detectFaces` does not raise, it calls `requestAnimationFrame` zero times, and
in the component state after its effects `error` is "Detection failed",
`isDetecting` is false and the scheduled frames are those from before. -/
theorem detectFaces_failure {α : Type} [JSNumber α] (c : Closure) (refs : Refs) (env : Env α)
    (canvas : Canvas)
    (hd : c.detector = true) (hv : refs.video = true) (hc : refs.canvas = some canvas)
    (hfail : iterationFails c canvas env = true) :
    (detectFaces c refs env).raised = false
      ∧ rafCount (detectFaces c refs env).trace = 0
      ∧ ∀ s : Component,
          (applyTrace s (detectFaces c refs env).trace).error = "Detection failed"
          ∧ (applyTrace s (detectFaces c refs env).trace).isDetecting = false
          ∧ (applyTrace s (detectFaces c refs env).trace).scheduled = s.scheduled := by
  obtain ⟨tr, htr, hout⟩ := detectFaces_failure_trace c refs env canvas hd hv hc hfail
  rw [hout]
  refine ⟨rfl, ?_, ?_⟩
  · have h0 := rafCount_canvasOps tr htr
    unfold rafCount at h0 ⊢
    rw [List.length_eq_zero] at h0
    rcases runDetector_call c env with h | h <;> rw [h] <;>
      simp [List.filter_cons, List.filter_append, h0, catchBlock]
  · intro s
    have hcall : applyEffect s (runDetector c env).1 = s := by
      rcases runDetector_call c env with h | h <;> rw [h] <;> rfl
    have happ : applyTrace s ((runDetector c env).1 :: (tr ++ catchBlock))
        = applyTrace s (catchBlock : List (Effect α)) := by
      simp only [applyTrace, List.foldl_cons, List.foldl_append, hcall]
      have := applyTrace_canvasOps s tr htr
      simp only [applyTrace] at this
      rw [this]
    simp only [happ]
    exact ⟨rfl, rfl, rfl⟩

/-- Instance of `detectFaces_failure`: the running component, a detector that
finds one face, and a throw while the first rectangle is being set up. -/
theorem detectFaces_failure_witness :
    iterationFails running.render { width := 640, height := 480 } failingDraw = true
      ∧ (detectFaces running.render running.refs failingDraw).raised = false
      ∧ rafCount (detectFaces running.render running.refs failingDraw).trace = 0
      ∧ ∀ s : Component,
          (applyTrace s (detectFaces running.render running.refs failingDraw).trace).error
              = "Detection failed"
          ∧ (applyTrace s
                (detectFaces running.render running.refs failingDraw).trace).isDetecting = false
          ∧ (applyTrace s
                (detectFaces running.render running.refs failingDraw).trace).scheduled
              = s.scheduled :=
  ⟨by decide,
    detectFaces_failure running.render running.refs failingDraw { width := 640, height := 480 }
      rfl rfl rfl (by decide)⟩

/-- C1: on the blazeface branch of `detectFaces` in `detection.jsx` the result
list has as many boxes as there are predictions, and for the prediction at
position `i` with top-left point `[p1x, p1y]` and bottom-right point
`[p2x, p2y]` the box at position `i` has `x = p1x`, `y = p1y`,
`width = p2x - p1x` and `height = p2y - p1y`. -/
theorem fallbackFaces_spec {α : Type} [JSNumber α] (predictions : List (Prediction α)) :
    (fallbackFaces predictions).length = predictions.length
      ∧ ∀ (i : Nat) (pred : Prediction α) (p1x p1y p2x p2y : α),
          predictions[i]? = some pred →
          pred.topLeft = [p1x, p1y] →
          pred.bottomRight = [p2x, p2y] →
          (fallbackFaces predictions)[i]? = some
            { box :=
              { x := .num p1x
                y := .num p1y
                width := .num (JSNumber.sub p2x p1x)
                height := .num (JSNumber.sub p2y p1y) } } := by
  refine ⟨by simp [fallbackFaces], ?_⟩
  intro i pred p1x p1y p2x p2y hi h1 h2
  simp [fallbackFaces, List.getElem?_map, hi, h1, h2, index, jsSub, JSVal.toNumber]

/-- Instance of `fallbackFaces_spec`: the face from (10, 20) to (40, 60) gives
the box at (10, 20) of width 30 and height 40. -/
theorem fallbackFaces_spec_witness :
    (fallbackFaces
        [({ topLeft := [.int 10, .int 20], bottomRight := [.int 40, .int 60] } :
          Prediction IntNum)])[0]?
      = some
        { box :=
          { x := .num (.int 10)
            y := .num (.int 20)
            width := .num (.int 30)
            height := .num (.int 40) } } :=
  (fallbackFaces_spec
      [({ topLeft := [.int 10, .int 20], bottomRight := [.int 40, .int 60] } :
        Prediction IntNum)]).2
    0 _ (.int 10) (.int 20) (.int 40) (.int 60) rfl rfl rfl

/-- C7, as stated, fails: from the running component `running`, a second
`toggleDetection` after the stopping one does not leave the state reached
after the first; it sets `isDetecting` back to true and starts a
`detectFaces` call. -/
theorem toggleDetection_not_idempotent :
    ¬ ((click (α := IntNum) (click (α := IntNum) running).1).1 = (click (α := IntNum) running).1
        ∧ (click (α := IntNum) (click (α := IntNum) running).1).1.isDetecting = false
        ∧ startsDetectFaces (click (α := IntNum) (click (α := IntNum) running).1).2 = false) := by
  decide

/-- C7, amended: `toggleDetection` is a toggle. From every state in which
detection is running, the first invocation sets `isDetecting` to false and
only calls `cancelAnimationFrame(detectionRef.current)`; a second invocation
sets `isDetecting` back to true and starts exactly one `detectFaces` call, the
one of the render in which `isDetecting` is false. -/
theorem toggleDetection_twice {α : Type} (s : Component) (h : s.isDetecting = true) :
    (click (α := α) s).1.isDetecting = false
      ∧ (click (α := α) s).2 = [.cancelAnimationFrame s.detectionRef]
      ∧ (click (α := α) (click (α := α) s).1).1.isDetecting = true
      ∧ (click (α := α) (click (α := α) s).1).2
          = [.detectFaces
              { detector := s.detector, detectionType := s.detectionType,
                isDetecting := false }] := by
  simp [click, toggleDetection, h, applyTrace, applyEffect, Component.render, Component.refs]

/-- Instance of `toggleDetection_twice` at the component `running`. -/
theorem toggleDetection_twice_witness :
    (click (α := IntNum) running).1.isDetecting = false
      ∧ (click (α := IntNum) running).2 = [.cancelAnimationFrame (some 3)]
      ∧ (click (α := IntNum) (click (α := IntNum) running).1).1.isDetecting = true
      ∧ (click (α := IntNum) (click (α := IntNum) running).1).2
          = [.detectFaces
              { detector := true, detectionType := some .blazeface, isDetecting := false }] :=
  toggleDetection_twice running rfl

/-- Frame requests of a concatenated trace. -/
theorem rafCount_append {α : Type} (a b : List (Effect α)) :
    rafCount (a ++ b) = rafCount a + rafCount b := by
  simp [rafCount, List.filter_append]

/-- The detector call is no frame request. -/
theorem rafCount_call {α : Type} [JSNumber α] (c : Closure) (env : Env α)
    (tr : List (Effect α)) :
    rafCount ((runDetector c env).1 :: tr) = rafCount tr := by
  rcases runDetector_call c env with h | h <;> rw [h] <;> simp [rafCount, List.filter_cons]

/-- The steps `runSteps` performs are steps of the sequence it was given. -/
theorem runSteps_subset {ε : Type} (steps : List ε) (failAt : Option Nat) :
    ∀ e ∈ (runSteps steps failAt).1, e ∈ steps := by
  intro e he
  unfold runSteps at he
  split at he
  · exact he
  · split at he
    · exact List.mem_of_mem_take he
    · exact he

/-- Every run of a closure that captured `isDetecting = false` requests no
frame, whatever the detector returns and whichever step throws. -/
theorem detectFaces_idle_closure (α : Type) [JSNumber α] (c : Closure) (refs : Refs)
    (env : Env α) (h : c.isDetecting = false) :
    rafCount (detectFaces c refs env).trace = 0 := by
  unfold detectFaces
  split
  · rfl
  · rename_i canvas _
    split
    · rfl
    · have hcall := rafCount_call c env
      have hsteps : ∀ faces : List (Face α), ∀ e ∈ afterDetector c canvas faces,
          isCanvasOp e = true := by
        intro faces e he
        simp only [afterDetector, h, Bool.false_eq_true, if_false, List.append_nil] at he
        exact canvasSteps_isCanvasOp canvas faces e he
      rcases hp : runDetector c env with ⟨call, r⟩
      rw [hp] at hcall
      simp only at hcall
      cases r with
      | none => simp only [hcall]; rfl
      | some faces =>
        simp only
        have hsub := runSteps_subset (afterDetector c canvas faces) env.failAt
        rcases hrs : runSteps (afterDetector c canvas faces) env.failAt with ⟨done, b⟩
        rw [hrs] at hsub
        have hdone := rafCount_canvasOps done (fun e he => hsteps faces e (hsub e he))
        cases b
        · simp only [hcall]
          exact hdone
        · simp only [hcall, rafCount_append, hdone]
          rfl

/-- C8 at a concrete start: clicking start on the idle component `idle` runs
the `detectFaces` of the render in which `isDetecting` is false; with a
detector that finds one face this iteration clears the canvas, strokes the
rectangle and ends there: it calls `requestAnimationFrame` zero times. -/
theorem started_iteration_schedules_nothing :
    (click (α := IntNum) idle).2 = [.detectFaces idle.render]
      ∧ (click (α := IntNum) idle).1.isDetecting = true
      ∧ (detectFaces idle.render idle.refs oneFace).trace
          = [.estimateFaces, .getContext, .clearRect 0 0 640 480,
             .setStrokeStyle "#4ade80", .setLineWidth 2,
             .strokeRect (.num (.int 10)) (.num (.int 20)) (.num (.int 30)) (.num (.int 40))]
      ∧ rafCount (detectFaces idle.render idle.refs oneFace).trace = 0 := by
  decide

end Detection

namespace App

/-- The `forEach` of lines 36-51 performs no notifier effect. -/
theorem drawPrediction_not_notifier {α : Type} [JSNumber α]
    (predictions : List (Prediction α)) :
    ∀ e ∈ predictions.flatMap drawPrediction, isNotifierEffect e = false := by
  intro e he
  simp only [List.mem_flatMap, drawPrediction, List.mem_cons, List.mem_singleton,
    List.not_mem_nil, or_false] at he
  obtain ⟨p, _, h⟩ := he
  rcases h with rfl | rfl | rfl | rfl | rfl | rfl | rfl | rfl <;> rfl

/-- Filtering notifier effects out of a trace without any. -/
theorem filter_not_notifier {α : Type} (tr : List (Effect α))
    (h : ∀ e ∈ tr, isNotifierEffect e = false) : tr.filter isNotifierEffect = [] := by
  rw [List.filter_eq_nil_iff]
  intro e he
  simp [h e he]

/-- A trace without notifier effects leaves the component state as it is. -/
theorem applyTrace_not_notifier {α : Type} (s : State) (tr : List (Effect α))
    (h : ∀ e ∈ tr, isNotifierEffect e = false) : applyTrace s tr = s := by
  induction tr with
  | nil => rfl
  | cons e es ih =>
    have he : applyEffect s e = s := by
      have := h e (List.mem_cons_self _ _)
      cases e <;> first | rfl | simp [isNotifierEffect] at this
    simp only [applyTrace, List.foldl_cons, he]
    exact ih (fun x hx => h x (List.mem_cons_of_mem _ hx))

/-- A trace without notifier effects does not call `callCustomApi`. -/
theorem callsCustomApi_not_notifier {α : Type} (tr : List (Effect α))
    (h : ∀ e ∈ tr, isNotifierEffect e = false) : callsCustomApi tr = false := by
  unfold callsCustomApi
  rw [List.any_eq_false]
  intro e he
  have := h e he
  cases e <;> simp [isNotifierEffect] at this ⊢

/-- C2: for the `detectFaces` of `App.jsx` past its guard, as a function of
`now`, the `lastApiCall` it reads and the predictions: the notifier effects of
the run are `callCustomApi()` followed by `setLastApiCall(now)` when there is
at least one prediction and `now - lastApiCall >= 10000`, and none otherwise;
so `callCustomApi` is called if and only if both conditions hold, and the
`lastApiCall` state afterwards is `now` in that case and unchanged in every
other. -/
theorem detectFaces_notifier {α : Type} [JSNumber α] (m : Nat) (lastApiCall now : Int)
    (canvas : Canvas) (predictions : List (Prediction α)) :
    ((detectFaces { model := some m, lastApiCall := lastApiCall } true canvas predictions
          now).filter isNotifierEffect
        = if 0 < predictions.length ∧ now - lastApiCall ≥ 10000 then
            [.callCustomApi, .setLastApiCall now]
          else [])
      ∧ (callsCustomApi
            (detectFaces { model := some m, lastApiCall := lastApiCall } true canvas predictions
              now) = true
          ↔ 0 < predictions.length ∧ now - lastApiCall ≥ 10000)
      ∧ ∀ s : State,
          (applyTrace s
              (detectFaces { model := some m, lastApiCall := lastApiCall } true canvas
                predictions now)).lastApiCall
            = if 0 < predictions.length ∧ now - lastApiCall ≥ 10000 then now
              else s.lastApiCall := by
  have hdraw := drawPrediction_not_notifier predictions
  have hf := filter_not_notifier _ hdraw
  have hc := callsCustomApi_not_notifier _ hdraw
  unfold callsCustomApi at hc
  have hdet : detectFaces { model := some m, lastApiCall := lastApiCall } true canvas
      predictions now
      = [.estimateFaces, .getContext, .clearRect 0 0 canvas.width canvas.height]
        ++ (if predictions.length > 0 then
              predictions.flatMap drawPrediction
                ++ (if now - lastApiCall ≥ 10000 then
                      [.callCustomApi, .setLastApiCall now]
                    else [])
            else []) := by
    simp [detectFaces]
  rw [hdet]
  by_cases h1 : 0 < predictions.length
  · by_cases h2 : now - lastApiCall ≥ 10000
    · refine ⟨?_, ?_, ?_⟩
      · simp [h1, h2, List.filter_append, hf, List.filter_cons, isNotifierEffect]
      · simp [h1, h2, callsCustomApi]
      · intro s
        have := applyTrace_not_notifier s _ hdraw
        simp only [applyTrace] at this
        simp [h1, h2, applyTrace, List.foldl_append, this, applyEffect, commit]
    · refine ⟨?_, ?_, ?_⟩
      · simp [h1, h2, List.filter_append, hf, List.filter_cons, isNotifierEffect]
      · simp [h1, h2, callsCustomApi, hc]
      · intro s
        have := applyTrace_not_notifier s _ hdraw
        simp only [applyTrace] at this
        simp [h1, h2, applyTrace, List.foldl_append, this, applyEffect]
  · refine ⟨?_, ?_, ?_⟩
    · simp [h1, List.filter_cons, isNotifierEffect]
    · simp [h1, callsCustomApi]
    · intro s
      simp [h1, applyTrace, applyEffect]

/-- C3 at a concrete run: after the model has loaded, two ticks 100 ms apart
that each detect a face both call `callCustomApi`. The interval installed by
the effect keeps calling the `detectFaces` that captured `lastApiCall = 0`,
because `setLastApiCall` does not change the dependency list `[model]`. -/
theorem stale_interval_calls_every_tick :
    callTimes mount [Event.modelLoaded 1, .tick [face] 20000, .tick [face] 20100]
      = [20000, 20100] := by
  decide

/-- When the guard of line 29 holds, a prediction is present and the
difference to the captured `lastApiCall` is at least 10 000, `callCustomApi`
is called. -/
theorem callsCustomApi_detectFaces {α : Type} [JSNumber α] (c : Closure) (video : Bool)
    (canvas : Canvas) (predictions : List (Prediction α)) (now : Int)
    (hv : video = true) (hm : c.model.isSome = true) (hp : 0 < predictions.length)
    (hn : now - c.lastApiCall ≥ 10000) :
    callsCustomApi (detectFaces c video canvas predictions now) = true := by
  simp [detectFaces, hv, hm, hp, hn, callsCustomApi]

/-- Events without a face preserve `Fresh`. -/
theorem fresh_step {α : Type} [JSNumber α] (s : State) (ev : Event α) (hs : Fresh s)
    (hev : noFace ev = true) : Fresh (step s ev).1 := by
  obtain ⟨h1, h2, h3⟩ := hs
  cases ev with
  | tick predictions currentTime =>
    have hp : predictions = [] := by simpa [noFace] using hev
    subst hp
    have : applyTrace s (detectFaces (α := α) s.interval s.video s.canvas [] currentTime) = s := by
      unfold detectFaces
      split <;> rfl
    simp only [step, this]
    exact ⟨h1, h2, h3⟩
  | modelLoaded m =>
    simp only [step, commit, Fresh]
    refine ⟨h1, ?_, h3⟩
    split
    · exact h1
    · exact h2

/-- Runs without a face preserve `Fresh`. -/
theorem fresh_runEvents {α : Type} [JSNumber α] (events : List (Event α)) :
    ∀ s : State, Fresh s → (∀ ev ∈ events, noFace ev = true) → Fresh (runEvents s events) := by
  induction events with
  | nil => intro s hs _; exact hs
  | cons ev rest ih =>
    intro s hs hno
    simp only [runEvents, List.foldl_cons]
    exact ih _ (fresh_step s ev hs (hno ev (List.mem_cons_self _ _)))
      (fun e he => hno e (List.mem_cons_of_mem _ he))

/-- C4: with `lastApiCall` at its initial value 0, that is after any run of
ticks and model loads in which no face was detected, the first `detectFaces`
run that detects at least one face calls `callCustomApi`, for every value
`now` that `Date.now()` returns. `Date.now()` counts the milliseconds since
1 January 1970, 00:00:00 UTC, so every reading of a clock set later than
00:00:10 on that day is at least 10 000; `hnow` is that range of the
readings. -/
theorem first_detection_fires {α : Type} [JSNumber α] (events : List (Event α))
    (predictions : List (Prediction α)) (now : Int)
    (hno : ∀ ev ∈ events, noFace ev = true)
    (hmodel : (runEvents mount events).interval.model.isSome = true)
    (hface : 0 < predictions.length) (hnow : 10000 ≤ now) :
    callsCustomApi (step (runEvents mount events) (.tick predictions now)).2 = true := by
  obtain ⟨_, h2, h3⟩ := fresh_runEvents events mount ⟨rfl, rfl, rfl⟩ hno
  simp only [step]
  apply callsCustomApi_detectFaces _ _ _ _ _ h3 hmodel hface
  rw [h2]
  omega

/-- Instance of `first_detection_fires` at clock readings of November 2025:
an empty tick, the model load, another empty tick, then a face. -/
theorem first_detection_fires_witness :
    (10000 : Int) ≤ 1762387200000
      ∧ callsCustomApi
          (step (runEvents mount [(Event.tick [] 1762387199800 : Event IntNum), .modelLoaded 1,
              .tick [] 1762387199900])
            (.tick [face] 1762387200000)).2 = true :=
  ⟨by decide,
    first_detection_fires (α := IntNum)
      [.tick [] 1762387199800, .modelLoaded 1, .tick [] 1762387199900] [face]
      1762387200000 (by decide) (by decide) (by decide) (by decide)⟩

/-- C9, as stated, fails: with calls that take 250 ms, the tick at 100 starts
an `estimateFaces` call while the one started at 0 is still unresolved. -/
theorem slow_detection_overlaps :
    ¬ ∀ n ∈ overlaps { model := some 1, lastApiCall := 0 } true []
        [{ time := 0, latency := 250 }, { time := 100, latency := 250 }], n = 0 := by
  decide

/-- When every pending call resolves before the first tick and every call
started resolves before the next tick, no tick starts a call over an
unresolved one. -/
theorem overlaps_zero_of_pending (c : Closure) (video : Bool) (ticks : List Tick) :
    ∀ pending : List Int,
      (∀ tk ∈ ticks.head?, ∀ r ∈ pending, r < tk.time) →
      List.Chain' (fun a b : Tick => a.time + a.latency < b.time) ticks →
      ∀ n ∈ overlaps c video pending ticks, n = 0 := by
  induction ticks with
  | nil => intro pending _ _ n hn; simp [overlaps] at hn
  | cons tk rest ih =>
    intro pending hpend hchain n hn
    have hnil : pending.filter (fun r => decide (tk.time ≤ r)) = [] := by
      rw [List.filter_eq_nil_iff]
      intro r hr
      have := hpend tk (by simp) r hr
      simp only [decide_eq_true_eq, not_le]
      exact this
    simp only [overlaps, List.mem_cons] at hn
    rcases hn with hn | hn
    · rw [hn]
      unfold onTick
      simp only [hnil]
      split <;> rfl
    · refine ih _ ?_ (List.Chain'.tail hchain) n hn
      intro nxt hnxt r hr
      have hlt : tk.time + tk.latency < nxt.time := by
        cases rest with
        | nil => simp at hnxt
        | cons b bs =>
          simp only [List.head?_cons, Option.mem_def, Option.some.injEq] at hnxt
          subst hnxt
          exact (List.chain'_cons.mp hchain).1
      unfold onTick at hr
      simp only [hnil] at hr
      split at hr
      · simp only [List.nil_append, List.mem_singleton] at hr
        rw [hr]; exact hlt
      · simp at hr

/-- C9, amended: in every run of ticks in which each `estimateFaces` call
resolves before the next tick fires, no tick starts a new call while an
earlier one is unresolved. -/
theorem fast_detection_never_overlaps (c : Closure) (video : Bool) (ticks : List Tick)
    (h : List.Chain' (fun a b : Tick => a.time + a.latency < b.time) ticks) :
    ∀ n ∈ overlaps c video [] ticks, n = 0 :=
  overlaps_zero_of_pending c video ticks [] (by simp) h

/-- Instance of `fast_detection_never_overlaps`: ticks 100 ms apart, calls of
99, 40 and 99 ms. -/
theorem fast_detection_never_overlaps_witness :
    List.Chain' (fun a b : Tick => a.time + a.latency < b.time)
        [{ time := 0, latency := 99 }, { time := 100, latency := 40 },
         { time := 200, latency := 99 }]
      ∧ ∀ n ∈ overlaps { model := some 1, lastApiCall := 0 } true []
          [{ time := 0, latency := 99 }, { time := 100, latency := 40 },
           { time := 200, latency := 99 }], n = 0 :=
  ⟨by simp,
    fast_detection_never_overlaps { model := some 1, lastApiCall := 0 } true
      [{ time := 0, latency := 99 }, { time := 100, latency := 40 },
       { time := 200, latency := 99 }]
      (by simp)⟩

/-- C10: for every prediction whose `topLeft` and `bottomRight` both have two
elements, the `[x, y, width, height]` that `App.jsx` destructures from
`topLeft.concat(bottomRight.map((val, i) => val - topLeft[i]))` are, component
by component, the `x`, `y`, `width` and `height` of the box `detection.jsx`
builds from the same prediction. -/
theorem rectOf_eq_fallbackFaces {α : Type} [JSNumber α] (prediction : Prediction α)
    (h1 : prediction.topLeft.length = 2) (h2 : prediction.bottomRight.length = 2) :
    Detection.fallbackFaces [prediction]
      = [{ box :=
           { x := (rectOf prediction).1
             y := (rectOf prediction).2.1
             width := (rectOf prediction).2.2.1
             height := (rectOf prediction).2.2.2 } }] := by
  obtain ⟨tl, br⟩ := prediction
  simp only at h1 h2
  match tl, h1, br, h2 with
  | [a, b], _, [c, d], _ =>
    simp [Detection.fallbackFaces, rectOf, index, jsSub, JSVal.toNumber, List.mapIdx_cons]

/-- Instance of `rectOf_eq_fallbackFaces` at the prediction `face`. -/
theorem rectOf_eq_fallbackFaces_witness :
    Detection.fallbackFaces [face]
      = [{ box :=
           { x := (rectOf face).1
             y := (rectOf face).2.1
             width := (rectOf face).2.2.1
             height := (rectOf face).2.2.2 } }] :=
  rectOf_eq_fallbackFaces face (by decide) (by decide)

end App

end FaceDetection
